import Mathlib

/-!
# Verification of the ink! dispatch layer and off-chain environment

This development gives a shallow embedding of the two source files

* `core/src/env/engine/off_chain/impls.rs` — the off-chain (simulated)
  environment: `transfer_impl`, `weight_to_fee`, `return_value`, and
* `lang/codegen/src/generator/dispatch.rs` — the code generator producing
  the selector dispatcher (`dispatch_using_mode`, the message and
  constructor dispatch enums and their `scale::Decode` implementations),

and proves or refutes the specification's claims about them.

Modelling conventions:

* Machine integers are `Nat` with explicit bounds.  The balance type
  `T::Balance` is a chain-defined unsigned integer type; it is modelled by
  a bit width `w`, with values in `[0, 2^w)` and maximal value `2^w - 1`.
* Rust's built-in `+` on unsigned integers signals overflow as a program
  error (a panic under the overflow checks that are active in the test
  profile the off-chain environment runs under).  An arithmetic overflow,
  and every `expect` on a violated internal invariant, is modelled as a
  `trap` outcome, distinct from both success and a typed `EnvError`.
* Fallible operations return `Except`-style sum types; a `trap` carries
  the state as mutated up to the point of the panic.
* Byte strings are `List Nat` (each element a byte value); the dispatch
  layer only compares bytes for equality, so no modular arithmetic on
  bytes is needed.
-/

/-- Byte values as used in call data and selectors. -/
abbrev Byte := Nat

/-- Byte strings (call data, encodings, selectors). -/
abbrev Bytes := List Byte

/-- Account identifiers (`T::AccountId`); only equality is used. -/
abbrev AccountId := Nat

/-- Modelled from the spec: the `EnvError` taxonomy of
`core/src/env` (the enum itself is repository code outside `src/`).
`transfer_impl` uses `EnvError::TransferFailed`; typed reads surface
decode errors carrying a message, e.g. "could not decode gas price". -/
inductive EnvError where
  | TransferFailed
  | decodeError (msg : String)
  deriving DecidableEq, Repr

/-- Modelled from the spec: an `Account` record of the off-chain account
store — balance (unsigned, chain-defined width), storage map and rent
allowance, created lazily with zero balance.  The storage map is an
association list from keys to raw bytes. -/
structure Account where
  balance : Nat
  storage : List (Bytes × Bytes)
  rentAllowance : Nat
  deriving DecidableEq, Repr

/-- Modelled from the spec: the per-invocation execution context —
caller, callee, raw call data, and the output slot set by
`return_value`. -/
structure ExecContext where
  caller : AccountId
  callee : AccountId
  callData : Bytes
  output : Option Bytes
  deriving DecidableEq, Repr

/-- Modelled from the spec: the chain specification; `gas_price` is stored
encoded and its typed read can fail to decode, which is modelled by
`Option` (`none` means the stored bytes do not decode as the balance
type). -/
structure ChainSpec where
  gasPrice : Option Nat
  deriving DecidableEq, Repr

/-- Modelled from the spec: the off-chain `EnvInstance` state — the
account store (a map from account id to `Account`), the optional current
execution context and the chain specification. -/
structure EnvInstance where
  accounts : AccountId → Option Account
  execContext : Option ExecContext
  chainSpec : ChainSpec

/-- Outcome of `transfer_impl`: success and typed errors carry the
resulting account store; a `trap` (Rust panic: a failed `expect` or an
arithmetic overflow) carries the store as mutated up to the panic. -/
inductive TransferResult where
  | ok (accounts : AccountId → Option Account)
  | err (accounts : AccountId → Option Account) (e : EnvError)
  | trap (accounts : AccountId → Option Account) (msg : String)

/-- Whether a `TransferResult` is a success. -/
def TransferResult.isOk : TransferResult → Bool
  | .ok _ => true
  | _ => false

/-- Whether a `TransferResult` is a typed (recoverable) error. -/
def TransferResult.isErr : TransferResult → Bool
  | .err _ _ => true
  | _ => false

/-- Point update of an account store. -/
def setAccount (accounts : AccountId → Option Account) (id : AccountId)
    (a : Account) : AccountId → Option Account :=
  fun c => if c = id then some a else accounts c

/-- Modelled from the spec: `AccountsDb::get_or_create_account` — lazily
creates the account with zero balance (empty storage, zero rent
allowance) when absent. -/
def getOrCreateAccount (accounts : AccountId → Option Account)
    (id : AccountId) : (AccountId → Option Account) × Account :=
  match accounts id with
  | some a => (accounts, a)
  | none =>
    let fresh : Account := { balance := 0, storage := [], rentAllowance := 0 }
    (setAccount accounts id fresh, fresh)

/-- Updates only the balance field of an account
(`Account::set_balance`). -/
def setBalance (accounts : AccountId → Option Account) (id : AccountId)
    (b : Nat) : AccountId → Option Account :=
  fun c =>
    if c = id then (accounts c).map (fun a => { a with balance := b })
    else accounts c

/-- Embedding of `EnvInstance::transfer_impl`
(`off_chain/impls.rs`, lines 146–172), at balance bit width `w`:

1. `account_id::<T>()` resolves the executing contract — the callee of
   the execution context (`expect` panics when uninitialized);
2. the source account is looked up (`expect` panics when absent) and its
   balance read;
3. insufficient funds (`src_value < value`) return
   `Err(EnvError::TransferFailed)` before any mutation;
4. the destination is resolved or lazily created and its balance read;
5. the source balance is set to `src_value - value`;
6. the destination balance is set to `dst_value + value`, where the
   built-in addition traps when the sum exceeds the balance type's
   maximum `2^w - 1`. -/
def transfer_impl (w : Nat) (st : EnvInstance) (destination : AccountId)
    (value : Nat) : TransferResult :=
  match st.execContext with
  | none => .trap st.accounts "uninitialized execution context"
  | some ctx =>
    let src_id := ctx.callee
    match st.accounts src_id with
    | none => .trap st.accounts "account of executed contract must exist"
    | some srcAcc =>
      let src_value := srcAcc.balance
      if src_value < value then .err st.accounts .TransferFailed
      else
        let created := getOrCreateAccount st.accounts destination
        let accounts1 := created.1
        let dst_value := created.2.balance
        let accounts2 := setBalance accounts1 src_id (src_value - value)
        if dst_value + value ≤ 2 ^ w - 1 then
          .ok (setBalance accounts2 destination (dst_value + value))
        else
          .trap accounts2 "attempt to add with overflow"

/-- Balance of an account id in a store, zero when the account is
absent (a lazily created account starts at zero). -/
def balanceOf (accounts : AccountId → Option Account) (id : AccountId) : Nat :=
  ((accounts id).map Account.balance).getD 0

/-!
## The selector dispatcher

`dispatch.rs` generates, per contract, a message dispatch enum and a
constructor dispatch enum.  Each enum has one variant per handler holding
the handler's decoded arguments; its `scale::Decode` implementation reads
a `[u8; 4]` selector from the input and matches it against the selector
literal of each handler's arm, decoding the handler's argument types in
declaration order on a match and failing with a scale error
("encountered unknown ink! message selector") otherwise.
`dispatch_using_mode` picks the enum by dispatch mode, decodes the call
data into it — mapping every decode error to
`DispatchError::CouldNotReadInput` — and runs `Execute::execute` on the
decoded variant.

The embedding is parametric in a type `Val` of decoded argument values
(the per-variant payloads of the generated enum, which is itself a sum
type); a decoded enum value is a pair of the matched arm's index and the
list of its decoded arguments.
-/

/-- Scale decoding errors (`scale::Error` carries a message). -/
structure ScaleError where
  msg : String
  deriving DecidableEq, Repr

/-- Modelled from the spec: the `DispatchError` enum of `ink_lang` (code
outside `src/`), with the two variants the spec's error taxonomy names:
`CouldNotReadInput` (selector or argument decode failure) and
`UnknownSelector` (selector not present in the active table). -/
inductive DispatchError where
  | CouldNotReadInput
  | UnknownSelector
  deriving DecidableEq, Repr

/-- Embedding of a `scale::Decode` implementation for one argument type:
`run` consumes an initial segment of the input and returns the decoded
value and the remaining bytes, or a scale error.  The `lawful` field is
the Binary Codec's contract (spec §6: "field boundaries are determined
entirely by each type's own encoding length"): a successful decode
depends only on the bytes it consumed. -/
structure ArgDecoder (Val : Type) where
  run : Bytes → Except ScaleError (Val × Bytes)
  lawful : ∀ bs v rest, run bs = .ok (v, rest) →
    ∃ pre, bs = pre ++ rest ∧ ∀ tail, run (pre ++ tail) = .ok (v, tail)

/-- Embedding of the argument decoding of one generated decode arm
(`generate_dispatch_variant_decode`, `dispatch.rs` lines 339–347):
`<T1 as Decode>::decode(input)?, <T2 as Decode>::decode(input)?, …` —
each argument type decoded from the remaining input in declaration
order, left to right, any failure propagated. -/
def decodeArmArgs {Val : Type} (ds : List (ArgDecoder Val)) (bs : Bytes) :
    Except ScaleError (List Val × Bytes) :=
  match ds with
  | [] => .ok ([], bs)
  | d :: ds' =>
    match d.run bs with
    | .error e => .error e
    | .ok (v, rest) =>
      match decodeArmArgs ds' rest with
      | .error e => .error e
      | .ok (vs, rest') => .ok (v :: vs, rest')

/-- Embedding of `<[u8; 4] as scale::Decode>::decode`: reads exactly the
first four bytes, failing when fewer are available. -/
def decodeSelector (bs : Bytes) : Except ScaleError (Bytes × Bytes) :=
  match bs with
  | b0 :: b1 :: b2 :: b3 :: rest => .ok ([b0, b1, b2, b3], rest)
  | _ => .error { msg := "Not enough data to fill buffer" }

/-- One arm of a generated dispatch enum: the handler's 4-byte selector
literal and its argument decoders in declaration order. -/
structure DispatchArm (Val : Type) where
  selector : Bytes
  argDecoders : List (ArgDecoder Val)

/-- First-match lookup of a selector among the generated match arms,
returning the arm together with its variant index.  The generated code is
a Rust `match` on the selector bytes whose arms appear in table order. -/
def findArm {Val : Type} (arms : List (DispatchArm Val)) (sel : Bytes) :
    Option (Nat × DispatchArm Val) :=
  match arms with
  | [] => none
  | arm :: rest =>
    if arm.selector = sel then some (0, arm)
    else (findArm rest sel).map (fun p => (p.1 + 1, p.2))

/-- Embedding of the generated `scale::Decode` implementation of a
dispatch enum (`generate_message_dispatch_enum`, `dispatch.rs` lines
446–453, and identically for the constructor enum, lines 529–536):
decode a `[u8; 4]` selector, match it against each arm's selector
literal, decode that arm's argument types on a match, and fail with the
enum's unknown-selector scale error otherwise ("encountered unknown
ink! message selector" for the message enum, "encountered unknown ink!
constructor selector" for the constructor enum — `unknownMsg`).  The
decoded value is the matched arm's variant index with its decoded
arguments. -/
def enumDecode {Val : Type} (unknownMsg : String)
    (arms : List (DispatchArm Val)) (input : Bytes) :
    Except ScaleError ((Nat × List Val) × Bytes) :=
  match decodeSelector input with
  | .error e => .error e
  | .ok (sel, rest) =>
    match findArm arms sel with
    | none => .error { msg := unknownMsg }
    | some (i, arm) =>
      match decodeArmArgs arm.argDecoders rest with
      | .error e => .error e
      | .ok (vs, rest') => .ok ((i, vs), rest')

/-- Embedding of one branch of `dispatch_using_mode`
(`generate_dispatch_using_mode`, `dispatch.rs` lines 129–140): decode the
input into the mode's dispatch enum, mapping every decode error to
`DispatchError::CouldNotReadInput`, then `execute` the decoded variant.
`exec` is the generated `Execute::execute` implementation (one handler
arm per variant); the bytes left over after decoding are discarded by
`decode_input`. -/
def dispatchEnum {Val : Type} (unknownMsg : String)
    (arms : List (DispatchArm Val))
    (exec : Nat × List Val → Except DispatchError Unit) (input : Bytes) :
    Except DispatchError Unit :=
  match enumDecode unknownMsg arms input with
  | .error _ => .error .CouldNotReadInput
  | .ok (v, _) => exec v

/-- The dispatch mode selecting the active handler table. -/
inductive DispatchMode where
  | Instantiate
  | Call
  deriving DecidableEq, Repr

/-- Embedding of `dispatch_using_mode` (`dispatch.rs` lines 125–142):
`Instantiate` decodes and executes the constructor dispatch enum, `Call`
the message dispatch enum, each over the raw call data. -/
def dispatch_using_mode {Val : Type}
    (ctorArms : List (DispatchArm Val))
    (ctorExec : Nat × List Val → Except DispatchError Unit)
    (msgArms : List (DispatchArm Val))
    (msgExec : Nat × List Val → Except DispatchError Unit)
    (mode : DispatchMode) (input : Bytes) : Except DispatchError Unit :=
  match mode with
  | .Instantiate =>
    dispatchEnum "encountered unknown ink! constructor selector" ctorArms ctorExec input
  | .Call =>
    dispatchEnum "encountered unknown ink! message selector" msgArms msgExec input

/-- The handler table consulted in a given dispatch mode: the
constructor table when instantiating, the message table when calling. -/
def activeTable {Val : Type} (ctorArms msgArms : List (DispatchArm Val)) :
    DispatchMode → List (DispatchArm Val)
  | .Instantiate => ctorArms
  | .Call => msgArms

/-- The `Execute::execute` implementation run in a given dispatch
mode. -/
def activeExec {Val : Type}
    (ctorExec msgExec : Nat × List Val → Except DispatchError Unit) :
    DispatchMode → Nat × List Val → Except DispatchError Unit
  | .Instantiate => ctorExec
  | .Call => msgExec

/-- The unknown-selector scale error message of the dispatch enum active
in a given mode. -/
def unknownSelectorMsg : DispatchMode → String
  | .Instantiate => "encountered unknown ink! constructor selector"
  | .Call => "encountered unknown ink! message selector"

/-!
## The dispatch enum generator

Claim C2 concerns the generator itself: from which collection of
callables `generate_constructor_dispatch_enum` builds the enum's
variants, its decode arms and its execute arms.  The token streams are
abstracted to descriptors recording, for each generated arm, the
selector literal, the variant identifier and the argument types — the
data the quoted code interpolates. -/

/-- The kind of a callable (`ir::CallableKind`), also the prefix of the
generated variant identifier (`"Message"` / `"Constructor"`). -/
inductive CallableKind where
  | Message
  | Constructor
  deriving DecidableEq, Repr

/-- Argument types as opaque tokens; only their identity and order
matter to the generator. -/
abbrev ArgTy := Nat

/-- A callable with its composed selector (`ir::CallableWithSelector`):
its kind, its 4-byte selector and its argument types in declaration
order. -/
structure Callable where
  kind : CallableKind
  selector : Bytes
  inputs : List ArgTy
  deriving DecidableEq, Repr

/-- A contract's messages and constructors in source order
(`contract_messages` and `contract_constructors` iterate the impl
blocks). -/
structure Contract where
  messages : List Callable
  constructors : List Callable
  deriving DecidableEq, Repr

/-- Embedding of `generate_dispatch_variant_ident` (`dispatch.rs` lines
301–321): the identifier `__{prefix}_0x{selector bytes in hex}` is
injective in the kind (which fixes the prefix) and the selector bytes,
so it is modelled as that pair. -/
def dispatchVariantIdent (c : Callable) : CallableKind × Bytes :=
  (c.kind, c.selector)

/-- Embedding of `generate_dispatch_variant_arm` (`dispatch.rs` lines
356–368): an enum variant declaration — its identifier and the argument
types it holds. -/
def dispatchVariantArm (c : Callable) : (CallableKind × Bytes) × List ArgTy :=
  (dispatchVariantIdent c, c.inputs)

/-- Embedding of `generate_dispatch_variant_decode` (`dispatch.rs` lines
329–348): one decode match arm — the selector literal pattern, the
variant identifier constructed, and the argument types decoded from the
remaining input in declaration order. -/
def dispatchVariantDecode (c : Callable) :
    Bytes × ((CallableKind × Bytes) × List ArgTy) :=
  (c.selector, dispatchVariantArm c)

/-- Descriptor of a generated dispatch enum: its variant declarations,
the decode match arms of its `scale::Decode` implementation, and the
variant identifiers matched by its `Execute::execute` implementation. -/
structure EnumDesc where
  variants : List ((CallableKind × Bytes) × List ArgTy)
  decodeArms : List (Bytes × ((CallableKind × Bytes) × List ArgTy))
  executeArms : List (CallableKind × Bytes)
  deriving DecidableEq, Repr

/-- Embedding of `generate_message_dispatch_enum` (`dispatch.rs` lines
425–464): variants, decode arms and execute arms are all built from
`contract_messages()`. -/
def generate_message_dispatch_enum (c : Contract) : EnumDesc :=
  { variants := c.messages.map dispatchVariantArm
    decodeArms := c.messages.map dispatchVariantDecode
    executeArms := c.messages.map dispatchVariantIdent }

/-- Embedding of `generate_constructor_dispatch_enum` (`dispatch.rs`
lines 508–547) exactly as the source reads: the variant declarations and
the decode arms are built from `contract_messages()` (lines 510–515),
while the execute arms are built from `contract_constructors()` (lines
516–518). -/
def generate_constructor_dispatch_enum (c : Contract) : EnumDesc :=
  { variants := c.messages.map dispatchVariantArm
    decodeArms := c.messages.map dispatchVariantDecode
    executeArms := c.constructors.map dispatchVariantIdent }

/-- Stated from the spec's words for comparison (refinement for claim
C2): the constructor dispatch enum with variants, decode arms and
execute arms all built from the contract's constructors. -/
def constructorDispatchEnumSpec (c : Contract) : EnumDesc :=
  { variants := c.constructors.map dispatchVariantArm
    decodeArms := c.constructors.map dispatchVariantDecode
    executeArms := c.constructors.map dispatchVariantIdent }

/-!
## Off-chain `return_value` and `weight_to_fee`
-/

/-- How an invocation of `return_value` ends, as observed from outside
the operation: either control returns to the dispatcher's caller
carrying a termination status (the behaviour the spec describes), or the
whole process is halted by `std::process::exit` with an exit code. -/
inductive Termination where
  | returnedControl (flags : Nat)
  | processExit (code : Int)
  deriving DecidableEq, Repr

/-- Outcome of `return_value`: the final environment state with the
termination behaviour, or a panic. -/
inductive ReturnValueResult where
  | halted (st : EnvInstance) (t : Termination)
  | trap (msg : String)

/-- The termination behaviour of a `return_value` outcome. -/
def ReturnValueResult.termination : ReturnValueResult → Option Termination
  | .halted _ t => some t
  | .trap _ => none

/-- The output slot of the execution context after a `return_value`
outcome. -/
def ReturnValueResult.outputSlot : ReturnValueResult → Option (Option Bytes)
  | .halted st _ => st.execContext.map ExecContext.output
  | .trap _ => none

/-- Rust's `flags.into_u32() as i32`: reinterpretation of a `u32` value
as a signed 32-bit exit code. -/
def u32AsI32 (f : Nat) : Int :=
  if f % 2 ^ 32 < 2 ^ 31 then (f % 2 ^ 32 : Int) else (f % 2 ^ 32 : Int) - 2 ^ 32

/-- Embedding of `Env::return_value` for the off-chain `EnvInstance`
(`off_chain/impls.rs`, lines 104–113): panic when the execution context
is uninitialized (`expect`); otherwise store the value's encoding in the
context's output slot (`ctx.output = Some(return_value.encode())`) and
halt the whole process via `std::process::exit(flags.into_u32() as
i32)`.  `encodedValue` stands for `return_value.encode()`. -/
def return_value (st : EnvInstance) (flags : Nat) (encodedValue : Bytes) :
    ReturnValueResult :=
  match st.execContext with
  | none => .trap "uninitialized execution context"
  | some ctx =>
    .halted
      { st with execContext := some { ctx with output := some encodedValue } }
      (.processExit (u32AsI32 flags))

/-- Stated from the spec's words for comparison (refinement for claim
C6): `return_value` stores the value's encoding in the output slot and
signals a well-defined termination status — recording `flags` as the
termination mode and returning control so the dispatcher's caller can
observe the recorded output — rather than truly halting the process. -/
def returnValueSpec (st : EnvInstance) (flags : Nat) (encodedValue : Bytes) :
    ReturnValueResult :=
  match st.execContext with
  | none => .trap "uninitialized execution context"
  | some ctx =>
    .halted
      { st with execContext := some { ctx with output := some encodedValue } }
      (.returnedControl flags)

/-- Embedding of `gas.try_into().unwrap_or_else(|_| Bounded::max_value())`
(`off_chain/impls.rs`, line 202): conversion of the `u64` gas value into
the balance type, saturating at the balance type's maximum when the
value does not fit. -/
def gasToBalance (w : Nat) (gas : Nat) : Nat :=
  if gas ≤ 2 ^ w - 1 then gas else 2 ^ w - 1

/-- Saturating multiplication at the balance type's maximum
(`Saturating::saturating_mul`). -/
def saturatingMul (w : Nat) (a b : Nat) : Nat :=
  min (a * b) (2 ^ w - 1)

/-- Embedding of `TypedEnv::weight_to_fee` for the off-chain
`EnvInstance` (`off_chain/impls.rs`, lines 193–203): read the chain
spec's gas price, mapping a decode failure to the error "could not
decode gas price", then return `gas_price.saturating_mul(gas.try_into()
.unwrap_or_else(|_| Bounded::max_value()))`. -/
def weight_to_fee (w : Nat) (st : EnvInstance) (gas : Nat) :
    Except EnvError Nat :=
  match st.chainSpec.gasPrice with
  | none => .error (.decodeError "could not decode gas price")
  | some gas_price => .ok (saturatingMul w gas_price (gasToBalance w gas))

/-- The panic message of a trapped `TransferResult`, when it is one. -/
def TransferResult.trapMsg : TransferResult → Option String
  | .trap _ msg => some msg
  | _ => none

/-!
## Concrete fixtures

Small concrete states, tables and contracts used to evaluate the
definitions at explicit inputs.
-/

/-- A store holding a single account `id` with the given balance. -/
def oneAccountStore (id : AccountId) (bal : Nat) : AccountId → Option Account :=
  fun c => if c = id then some { balance := bal, storage := [], rentAllowance := 0 } else none

/-- A store holding two accounts with the given balances. -/
def twoAccountStore (id1 : AccountId) (bal1 : Nat) (id2 : AccountId)
    (bal2 : Nat) : AccountId → Option Account :=
  fun c =>
    if c = id1 then some { balance := bal1, storage := [], rentAllowance := 0 }
    else if c = id2 then some { balance := bal2, storage := [], rentAllowance := 0 }
    else none

/-- An execution context whose callee is the given account. -/
def mkCtx (callee : AccountId) : ExecContext :=
  { caller := 9, callee := callee, callData := [], output := none }

/-- An environment over the given store, executing as `callee`. -/
def mkEnv (accounts : AccountId → Option Account) (callee : AccountId) :
    EnvInstance :=
  { accounts := accounts, execContext := some (mkCtx callee)
    chainSpec := { gasPrice := some 1 } }

/-- A lawful single-byte decoder: consumes exactly one byte and yields
its value. -/
def byteDecoder : ArgDecoder Nat where
  run bs :=
    match bs with
    | [] => .error { msg := "Not enough data to fill buffer" }
    | b :: rest => .ok (b, rest)
  lawful := by
    intro bs v rest h
    cases bs with
    | nil => exact absurd h (by simp)
    | cons b tl =>
      simp only [Except.ok.injEq, Prod.mk.injEq] at h
      exact ⟨[b], by simp [h.2], fun tail => by simp [h.1]⟩

/-- A dispatch table with a single handler of selector `0x00000001`
taking one byte-decoded argument. -/
def exampleArms : List (DispatchArm Nat) :=
  [{ selector := [0, 0, 0, 1], argDecoders := [byteDecoder] }]

/-- A dispatch table with a single argument-less handler of selector
`0x00000001`. -/
def exampleArmsNoArgs : List (DispatchArm Nat) :=
  [{ selector := [0, 0, 0, 1], argDecoders := [] }]

/-- An `Execute::execute` stand-in accepting every decoded variant. -/
def acceptAll : Nat × List Nat → Except DispatchError Unit :=
  fun _ => .ok ()

/-- A contract with one constructor (selector `0xC0C0C0C0`, no
arguments) and one message (selector `0x01010101`, no arguments) —
their selector sets are disjoint, as for any ordinary contract. -/
def exampleContract : Contract :=
  { messages := [{ kind := .Message, selector := [1, 1, 1, 1], inputs := [] }]
    constructors := [{ kind := .Constructor, selector := [192, 192, 192, 192], inputs := [] }] }

/-!
## Helper lemmas on the account store
-/

theorem setBalance_at (accounts : AccountId → Option Account) (id : AccountId)
    (b : Nat) :
    setBalance accounts id b id = (accounts id).map (fun a => { a with balance := b }) := by
  simp [setBalance]

theorem setBalance_ne (accounts : AccountId → Option Account) (id : AccountId)
    (b : Nat) (c : AccountId) (h : c ≠ id) :
    setBalance accounts id b c = accounts c := by
  simp [setBalance, h]

theorem getOrCreate_balance (accounts : AccountId → Option Account)
    (id : AccountId) :
    (getOrCreateAccount accounts id).2.balance = balanceOf accounts id := by
  unfold getOrCreateAccount balanceOf
  cases accounts id <;> simp

theorem getOrCreate_fst_at (accounts : AccountId → Option Account)
    (id : AccountId) :
    (getOrCreateAccount accounts id).1 id = some (getOrCreateAccount accounts id).2 := by
  unfold getOrCreateAccount
  rcases h : accounts id with _ | a <;> simp [setAccount, h]

theorem getOrCreate_ne (accounts : AccountId → Option Account)
    (id c : AccountId) (h : c ≠ id) :
    (getOrCreateAccount accounts id).1 c = accounts c := by
  unfold getOrCreateAccount
  cases accounts id <;> simp [setAccount, h]

/-!
## Claims about the transfer protocol
-/

/-- C4: for every transfer with amount strictly greater than the source
account's balance, `transfer_impl` returns `Err(EnvError::TransferFailed)`
carrying the account store exactly as it was at entry — both the source
and the destination balance (indeed every account record) are unchanged,
and in particular the destination has not even been lazily created:
the insufficient-funds check precedes every mutation. -/
theorem transfer_insufficient_funds_fails (w : Nat) (st : EnvInstance)
    (ctx : ExecContext) (srcAcc : Account) (destination : AccountId)
    (value : Nat)
    (hctx : st.execContext = some ctx)
    (hsrc : st.accounts ctx.callee = some srcAcc)
    (hlt : srcAcc.balance < value) :
    transfer_impl w st destination value = .err st.accounts .TransferFailed := by
  simp [transfer_impl, hctx, hsrc, hlt]

/-- Witness for C4 at a concrete state: the callee account `1` holds
balance `5`; transferring `7` to account `2` fails with
`TransferFailed` and the store is returned untouched. -/
theorem transfer_insufficient_funds_fails_witness :
    transfer_impl 128
      { accounts := fun c => if c = 1 then some { balance := 5, storage := [], rentAllowance := 0 } else none
        execContext := some { caller := 9, callee := 1, callData := [], output := none }
        chainSpec := { gasPrice := some 1 } }
      2 7
    = .err
        (fun c => if c = 1 then some { balance := 5, storage := [], rentAllowance := 0 } else none)
        .TransferFailed :=
  transfer_insufficient_funds_fails 128 _
    { caller := 9, callee := 1, callData := [], output := none }
    { balance := 5, storage := [], rentAllowance := 0 }
    2 7 rfl rfl (by decide)

/-- C5: for accounts `a ≠ b` with `a` the executing (source) account and
amount at most `a`'s balance, a successful `transfer_impl` conserves the
sum of the two balances, debits the source by exactly the amount, and
leaves every other account record untouched. -/
theorem transfer_conserves_total (w : Nat) (st : EnvInstance)
    (ctx : ExecContext) (srcAcc : Account) (b : AccountId) (value : Nat)
    (accounts' : AccountId → Option Account)
    (hctx : st.execContext = some ctx)
    (hsrc : st.accounts ctx.callee = some srcAcc)
    (hle : value ≤ srcAcc.balance)
    (hne : ctx.callee ≠ b)
    (hok : transfer_impl w st b value = .ok accounts') :
    balanceOf accounts' ctx.callee + balanceOf accounts' b
        = balanceOf st.accounts ctx.callee + balanceOf st.accounts b ∧
    balanceOf accounts' ctx.callee + value = balanceOf st.accounts ctx.callee ∧
    ∀ c, c ≠ ctx.callee → c ≠ b → accounts' c = st.accounts c := by
  have hnlt : ¬ srcAcc.balance < value := Nat.not_lt.mpr hle
  have hne' : b ≠ ctx.callee := Ne.symm hne
  simp only [transfer_impl, hctx, hsrc, hnlt, if_false] at hok
  split at hok
  case isFalse hguard => exact TransferResult.noConfusion hok
  case isTrue hguard =>
    injection hok with hok'
    subst hok'
    have hcal :
        balanceOf
          (setBalance
            (setBalance (getOrCreateAccount st.accounts b).1 ctx.callee
              (srcAcc.balance - value))
            b ((getOrCreateAccount st.accounts b).2.balance + value))
          ctx.callee = srcAcc.balance - value := by
      unfold balanceOf
      rw [setBalance_ne _ _ _ _ hne, setBalance_at,
        getOrCreate_ne _ _ _ hne, hsrc]
      rfl
    have hb :
        balanceOf
          (setBalance
            (setBalance (getOrCreateAccount st.accounts b).1 ctx.callee
              (srcAcc.balance - value))
            b ((getOrCreateAccount st.accounts b).2.balance + value))
          b = balanceOf st.accounts b + value := by
      unfold balanceOf
      rw [setBalance_at, setBalance_ne _ _ _ _ hne', getOrCreate_fst_at]
      simp [getOrCreate_balance, balanceOf]
    have hst : balanceOf st.accounts ctx.callee = srcAcc.balance := by
      unfold balanceOf; rw [hsrc]; rfl
    refine ⟨?_, ?_, ?_⟩
    · rw [hcal, hb, hst]; omega
    · rw [hcal, hst]; omega
    · intro c hc hcb
      rw [setBalance_ne _ _ _ _ hcb, setBalance_ne _ _ _ _ hc,
        getOrCreate_ne _ _ _ hcb]

/-- Witness for C5 at a concrete state: account `1` (the callee) holds
`10`, account `2` holds `3`; transferring `4` yields balances `6` and
`7` — the sum `13` is conserved, the source is debited by exactly `4`,
and an uninvolved account (`5`) is untouched. -/
theorem transfer_conserves_total_witness :
    balanceOf (setBalance (setBalance (twoAccountStore 1 10 2 3) 1 6) 2 7) 1
        + balanceOf (setBalance (setBalance (twoAccountStore 1 10 2 3) 1 6) 2 7) 2
      = balanceOf (twoAccountStore 1 10 2 3) 1 + balanceOf (twoAccountStore 1 10 2 3) 2 ∧
    balanceOf (setBalance (setBalance (twoAccountStore 1 10 2 3) 1 6) 2 7) 1 + 4
      = balanceOf (twoAccountStore 1 10 2 3) 1 ∧
    setBalance (setBalance (twoAccountStore 1 10 2 3) 1 6) 2 7 5
      = twoAccountStore 1 10 2 3 5 := by
  have h := transfer_conserves_total 128 (mkEnv (twoAccountStore 1 10 2 3) 1)
    (mkCtx 1) { balance := 10, storage := [], rentAllowance := 0 } 2 4
    (setBalance (setBalance (twoAccountStore 1 10 2 3) 1 6) 2 7)
    rfl rfl (by decide) (by decide) rfl
  exact ⟨h.1, h.2.1, h.2.2 5 (by decide) (by decide)⟩

/-- C3 counterexample: at balance width `8`, the callee `0` holds `50`
and the destination `1` holds `250`; transferring `20` (well within the
source's funds) overflows the destination's balance type.  The code
neither surfaces a typed error (`isErr = false` refutes "surfaces a
failure") nor saturates to a success (`isOk = false`): it panics with
Rust's overflow message, because the credit is a plain `+`. -/
theorem transfer_credit_overflow_counterexample :
    (transfer_impl 8 (mkEnv (twoAccountStore 0 50 1 250) 0) 1 20).isErr = false ∧
    (transfer_impl 8 (mkEnv (twoAccountStore 0 50 1 250) 0) 1 20).isOk = false ∧
    (transfer_impl 8 (mkEnv (twoAccountStore 0 50 1 250) 0) 1 20).trapMsg
      = some "attempt to add with overflow" := by
  decide

/-- C3 amended: the credit side uses Rust's plain addition: whenever
crediting the destination would exceed the balance type's maximum, the
off-chain transfer panics (traps with the overflow message) under the
overflow checks the test profile enables — it neither saturates nor
surfaces a typed error to the caller. -/
theorem transfer_credit_overflow_traps (w : Nat) (st : EnvInstance)
    (ctx : ExecContext) (srcAcc : Account) (destination : AccountId)
    (value : Nat)
    (hctx : st.execContext = some ctx)
    (hsrc : st.accounts ctx.callee = some srcAcc)
    (hle : value ≤ srcAcc.balance)
    (hov : 2 ^ w - 1 < balanceOf st.accounts destination + value) :
    (transfer_impl w st destination value).trapMsg
        = some "attempt to add with overflow" ∧
    (transfer_impl w st destination value).isErr = false ∧
    (transfer_impl w st destination value).isOk = false := by
  have hnlt : ¬ srcAcc.balance < value := Nat.not_lt.mpr hle
  have hnle : ¬ ((getOrCreateAccount st.accounts destination).2.balance + value
      ≤ 2 ^ w - 1) := by
    rw [getOrCreate_balance]; omega
  simp [transfer_impl, hctx, hsrc, hnlt, hnle,
    TransferResult.trapMsg, TransferResult.isErr, TransferResult.isOk]

/-- Witness for the amended C3: callee `0` holds `60`, destination `1`
holds `240`; transferring `30` at width `8` overflows and traps. -/
theorem transfer_credit_overflow_traps_witness :
    (transfer_impl 8 (mkEnv (twoAccountStore 0 60 1 240) 0) 1 30).trapMsg
        = some "attempt to add with overflow" ∧
    (transfer_impl 8 (mkEnv (twoAccountStore 0 60 1 240) 0) 1 30).isErr = false ∧
    (transfer_impl 8 (mkEnv (twoAccountStore 0 60 1 240) 0) 1 30).isOk = false :=
  transfer_credit_overflow_traps 8 (mkEnv (twoAccountStore 0 60 1 240) 0)
    (mkCtx 0) { balance := 60, storage := [], rentAllowance := 0 } 1 30
    rfl rfl (by decide) (by decide)

/-- C10 counterexample: at balance width `8`, account `0` holds `200`;
a self-transfer of `100` satisfies the claim's hypothesis
(`100 ≤ 200`), yet the transfer does not succeed: the destination
credit `200 + 100` overflows the balance type and the operation traps,
refuting the claim's unconditional "the off-chain transfer succeeds". -/
theorem transfer_self_overflow_counterexample :
    100 ≤ 200 ∧
    (transfer_impl 8 (mkEnv (oneAccountStore 0 200) 0) 0 100).isOk = false ∧
    (transfer_impl 8 (mkEnv (oneAccountStore 0 200) 0) 0 100).trapMsg
      = some "attempt to add with overflow" := by
  decide

/-- C10 amended: when the destination equals the source, the amount is
within the source's balance, and the credited sum fits the balance type,
the transfer succeeds and the account ends with its original balance
plus the amount: the destination balance is read before the source debit
is written, so the debit is overwritten and total balance across all
accounts grows by the amount (every other account is untouched). -/
theorem transfer_self_transfer_credits (w : Nat) (st : EnvInstance)
    (ctx : ExecContext) (srcAcc : Account) (value : Nat)
    (hctx : st.execContext = some ctx)
    (hsrc : st.accounts ctx.callee = some srcAcc)
    (hle : value ≤ srcAcc.balance)
    (hnoov : srcAcc.balance + value ≤ 2 ^ w - 1) :
    transfer_impl w st ctx.callee value
      = .ok (setBalance (setBalance st.accounts ctx.callee
          (srcAcc.balance - value)) ctx.callee (srcAcc.balance + value)) ∧
    balanceOf (setBalance (setBalance st.accounts ctx.callee
        (srcAcc.balance - value)) ctx.callee (srcAcc.balance + value))
        ctx.callee
      = srcAcc.balance + value ∧
    ∀ c, c ≠ ctx.callee →
      setBalance (setBalance st.accounts ctx.callee (srcAcc.balance - value))
        ctx.callee (srcAcc.balance + value) c = st.accounts c := by
  have hnlt : ¬ srcAcc.balance < value := Nat.not_lt.mpr hle
  have hget : getOrCreateAccount st.accounts ctx.callee = (st.accounts, srcAcc) := by
    unfold getOrCreateAccount; rw [hsrc]
  refine ⟨?_, ?_, ?_⟩
  · simp only [transfer_impl, hctx, hsrc, hnlt, if_false, hget]
    simp [hnoov]
  · unfold balanceOf
    rw [setBalance_at, setBalance_at, hsrc]
    rfl
  · intro c hc
    rw [setBalance_ne _ _ _ _ hc, setBalance_ne _ _ _ _ hc]

/-- Witness for the amended C10: account `0` holds `200`; a
self-transfer of `30` at width `8` succeeds and leaves balance `230`,
with an uninvolved account (`7`) untouched. -/
theorem transfer_self_transfer_credits_witness :
    transfer_impl 8 (mkEnv (oneAccountStore 0 200) 0) 0 30
      = .ok (setBalance (setBalance (oneAccountStore 0 200) 0 170) 0 230) ∧
    balanceOf (setBalance (setBalance (oneAccountStore 0 200) 0 170) 0 230) 0 = 230 ∧
    setBalance (setBalance (oneAccountStore 0 200) 0 170) 0 230 7
      = oneAccountStore 0 200 7 := by
  have h := transfer_self_transfer_credits 8 (mkEnv (oneAccountStore 0 200) 0)
    (mkCtx 0) { balance := 200, storage := [], rentAllowance := 0 } 30
    rfl rfl (by decide) (by decide)
  exact ⟨h.1, h.2.1, h.2.2 7 (by decide)⟩

/-!
## Helper lemmas on the dispatcher
-/

theorem decodeSelector_short (bs : Bytes) (h : bs.length < 4) :
    decodeSelector bs = .error { msg := "Not enough data to fill buffer" } := by
  rcases bs with _ | ⟨a, _ | ⟨b, _ | ⟨c, _ | ⟨d, rest⟩⟩⟩⟩
  · rfl
  · rfl
  · rfl
  · rfl
  · simp at h
    omega

theorem decodeSelector_append (sel rest : Bytes) (h : sel.length = 4) :
    decodeSelector (sel ++ rest) = .ok (sel, rest) := by
  rcases sel with _ | ⟨a, _ | ⟨b, _ | ⟨c, _ | ⟨d, tl⟩⟩⟩⟩
  · simp at h
  · simp at h
  · simp at h
  · simp at h
  · have htl : tl = [] := by
      have : tl.length = 0 := by simpa using h
      simpa using this
    subst htl
    rfl

theorem findArm_none {Val : Type} (arms : List (DispatchArm Val)) (sel : Bytes)
    (h : ∀ arm ∈ arms, arm.selector ≠ sel) : findArm arms sel = none := by
  induction arms with
  | nil => rfl
  | cons arm rest ih =>
    simp only [findArm]
    rw [if_neg (h arm (by simp)), ih (fun a ha => h a (by simp [ha]))]
    rfl

theorem decodeArmArgs_consumed {Val : Type} (ds : List (ArgDecoder Val)) :
    ∀ bs vals rest, decodeArmArgs ds bs = .ok (vals, rest) →
      ∃ pre, bs = pre ++ rest ∧
        ∀ tail, decodeArmArgs ds (pre ++ tail) = .ok (vals, tail) := by
  induction ds with
  | nil =>
    intro bs vals rest h
    simp only [decodeArmArgs, Except.ok.injEq, Prod.mk.injEq] at h
    obtain ⟨hv, hr⟩ := h
    subst hv
    subst hr
    exact ⟨[], rfl, fun tail => by simp [decodeArmArgs]⟩
  | cons d ds ih =>
    intro bs vals rest h
    simp only [decodeArmArgs] at h
    rcases hd : d.run bs with e | ⟨v, rest1⟩
    · simp only [hd] at h
      exact absurd h (by simp)
    · simp only [hd] at h
      rcases hrest : decodeArmArgs ds rest1 with e | ⟨vs, rest'⟩
      · simp only [hrest] at h
        exact absurd h (by simp)
      · simp only [hrest, Except.ok.injEq, Prod.mk.injEq] at h
        obtain ⟨hv, hr⟩ := h
        subst hv
        subst hr
        obtain ⟨pre1, hbs, hrun⟩ := d.lawful bs v rest1 hd
        obtain ⟨pre2, hrest1, hds⟩ := ih rest1 vs _ hrest
        refine ⟨pre1 ++ pre2, ?_, ?_⟩
        · rw [hbs, hrest1, List.append_assoc]
        · intro tail
          have h1 := hrun (pre2 ++ tail)
          have h2 := hds tail
          rw [List.append_assoc]
          simp [decodeArmArgs, h1, h2]

theorem decodeArmArgs_exact_append {Val : Type} (ds : List (ArgDecoder Val))
    (A : Bytes) (vals : List Val)
    (h : decodeArmArgs ds A = .ok (vals, [])) :
    ∀ X, decodeArmArgs ds (A ++ X) = .ok (vals, X) := by
  obtain ⟨pre, hA, hall⟩ := decodeArmArgs_consumed ds A vals [] h
  rw [List.append_nil] at hA
  subst hA
  exact hall

theorem dispatchEnum_matched {Val : Type} (unknownMsg : String)
    (arms : List (DispatchArm Val))
    (exec : Nat × List Val → Except DispatchError Unit)
    (S T : Bytes) (i : Nat) (arm : DispatchArm Val) (vals : List Val)
    (rest : Bytes)
    (hlen : S.length = 4)
    (hfind : findArm arms S = some (i, arm))
    (hargs : decodeArmArgs arm.argDecoders T = .ok (vals, rest)) :
    dispatchEnum unknownMsg arms exec (S ++ T) = exec (i, vals) := by
  simp [dispatchEnum, enumDecode, decodeSelector_append _ _ hlen, hfind, hargs]

theorem dispatchEnum_argfail {Val : Type} (unknownMsg : String)
    (arms : List (DispatchArm Val))
    (exec : Nat × List Val → Except DispatchError Unit)
    (S T : Bytes) (i : Nat) (arm : DispatchArm Val) (e : ScaleError)
    (hlen : S.length = 4)
    (hfind : findArm arms S = some (i, arm))
    (hargs : decodeArmArgs arm.argDecoders T = .error e) :
    dispatchEnum unknownMsg arms exec (S ++ T) = .error .CouldNotReadInput := by
  simp [dispatchEnum, enumDecode, decodeSelector_append _ _ hlen, hfind, hargs]

theorem dispatchEnum_unknown {Val : Type} (unknownMsg : String)
    (arms : List (DispatchArm Val))
    (exec : Nat × List Val → Except DispatchError Unit)
    (S rest : Bytes)
    (hlen : S.length = 4)
    (hunknown : ∀ arm ∈ arms, arm.selector ≠ S) :
    enumDecode unknownMsg arms (S ++ rest) = .error { msg := unknownMsg } ∧
    dispatchEnum unknownMsg arms exec (S ++ rest)
      = .error .CouldNotReadInput := by
  have hdec : enumDecode unknownMsg arms (S ++ rest) = .error { msg := unknownMsg } := by
    simp [enumDecode, decodeSelector_append _ _ hlen, findArm_none _ _ hunknown]
  exact ⟨hdec, by simp [dispatchEnum, hdec]⟩

/-!
## Claims about the dispatcher
-/

/-- C7: for every input shorter than 4 bytes, `dispatch_using_mode`
fails with `CouldNotReadInput` in either mode.  The result is the same
for every `Execute::execute` implementation (the `exec` arguments are
universally quantified and never applied), so no handler is invoked;
the dispatcher is a pure function of the input, so no contract state is
mutated. -/
theorem dispatch_short_input_fails {Val : Type}
    (ctorArms msgArms : List (DispatchArm Val))
    (ctorExec msgExec : Nat × List Val → Except DispatchError Unit)
    (mode : DispatchMode) (input : Bytes)
    (h : input.length < 4) :
    dispatch_using_mode ctorArms ctorExec msgArms msgExec mode input
      = .error .CouldNotReadInput := by
  cases mode <;>
    simp [dispatch_using_mode, dispatchEnum, enumDecode,
      decodeSelector_short _ h]

/-- Witness for C7: a 2-byte input fails with `CouldNotReadInput` on a
concrete one-handler table in `Call` mode. -/
theorem dispatch_short_input_fails_witness :
    dispatch_using_mode exampleArmsNoArgs acceptAll exampleArms acceptAll
      .Call [1, 2] = .error .CouldNotReadInput :=
  dispatch_short_input_fails exampleArmsNoArgs exampleArms acceptAll acceptAll
    .Call [1, 2] (by decide)

/-- C1 counterexample: on a concrete one-handler table (selector
`0x00000001`), dispatching the unknown 4-byte selector `0x09090909`
yields `CouldNotReadInput`, not `UnknownSelector`: `dispatch_using_mode`
maps every decode error of the dispatch enum — the unknown-selector
error included — to `DispatchError::CouldNotReadInput` (`dispatch.rs`
lines 132 and 138). -/
theorem dispatch_unknown_selector_counterexample :
    dispatch_using_mode exampleArmsNoArgs acceptAll exampleArmsNoArgs
        acceptAll .Call [9, 9, 9, 9] = .error .CouldNotReadInput ∧
    dispatch_using_mode exampleArmsNoArgs acceptAll exampleArmsNoArgs
        acceptAll .Call [9, 9, 9, 9] ≠ .error .UnknownSelector := by
  have h : dispatch_using_mode exampleArmsNoArgs acceptAll exampleArmsNoArgs
      acceptAll .Call [9, 9, 9, 9] = .error .CouldNotReadInput := rfl
  refine ⟨h, ?_⟩
  rw [h]
  simp

/-- C1 amended: for every 4-byte selector not present in the active
handler table, dispatch fails with `CouldNotReadInput` — not
`UnknownSelector` — without panicking and without invoking any handler.
The active dispatch enum's decoder does produce a distinct
unknown-selector scale error (first conjunct), but `dispatch_using_mode`
collapses it into `CouldNotReadInput` (second conjunct).  No handler is
invoked: the result is the same for every `Execute::execute`
implementation, and no panic exists on this path (the dispatcher is a
total function). -/
theorem dispatch_unknown_selector_fails {Val : Type}
    (ctorArms msgArms : List (DispatchArm Val))
    (ctorExec msgExec : Nat × List Val → Except DispatchError Unit)
    (mode : DispatchMode) (sel rest : Bytes)
    (hlen : sel.length = 4)
    (hunknown : ∀ arm ∈ activeTable ctorArms msgArms mode, arm.selector ≠ sel) :
    enumDecode (unknownSelectorMsg mode) (activeTable ctorArms msgArms mode)
        (sel ++ rest) = .error { msg := unknownSelectorMsg mode } ∧
    dispatch_using_mode ctorArms ctorExec msgArms msgExec mode (sel ++ rest)
        = .error .CouldNotReadInput := by
  cases mode
  · simp only [activeTable, unknownSelectorMsg] at hunknown ⊢
    exact ⟨(dispatchEnum_unknown _ _ ctorExec _ _ hlen hunknown).1,
      (dispatchEnum_unknown _ _ ctorExec _ _ hlen hunknown).2⟩
  · simp only [activeTable, unknownSelectorMsg] at hunknown ⊢
    exact ⟨(dispatchEnum_unknown _ _ msgExec _ _ hlen hunknown).1,
      (dispatchEnum_unknown _ _ msgExec _ _ hlen hunknown).2⟩

/-- Witness for the amended C1: the unknown selector `0xFFFFFFFF` on the
concrete one-handler table, in `Instantiate` mode. -/
theorem dispatch_unknown_selector_fails_witness :
    enumDecode (unknownSelectorMsg .Instantiate)
        (activeTable exampleArmsNoArgs exampleArms .Instantiate)
        ([255, 255, 255, 255] ++ [1])
      = .error { msg := unknownSelectorMsg .Instantiate } ∧
    dispatch_using_mode exampleArmsNoArgs acceptAll exampleArms acceptAll
        .Instantiate ([255, 255, 255, 255] ++ [1])
      = .error .CouldNotReadInput :=
  dispatch_unknown_selector_fails exampleArmsNoArgs exampleArms acceptAll
    acceptAll .Instantiate [255, 255, 255, 255] [1] (by decide)
    (by intro arm harm
        simp only [activeTable, exampleArmsNoArgs, List.mem_singleton] at harm
        subst harm
        decide)

/-- C9: for a handler whose selector `S` is matched in the active table
and whose argument decoders consume a byte string `A` exactly (decoding
the argument tuple in declaration order, left to right —
`decodeArmArgs` runs the decoders in list order on the remaining
input), dispatching `S ++ A ++ X` for any trailing bytes `X` invokes
the same handler (`activeExec … (i, vals)`) with the same decoded
arguments as dispatching `S ++ A`: the unconsumed trailing bytes are
ignored, not an error.  And for any byte string `B` on which argument
decoding fails (insufficient or malformed bytes), dispatching `S ++ B`
fails with `CouldNotReadInput`. -/
theorem dispatch_known_selector_decodes {Val : Type}
    (ctorArms msgArms : List (DispatchArm Val))
    (ctorExec msgExec : Nat × List Val → Except DispatchError Unit)
    (mode : DispatchMode) (S A X B : Bytes) (i : Nat)
    (arm : DispatchArm Val) (vals : List Val) (e : ScaleError)
    (hlen : S.length = 4)
    (hfind : findArm (activeTable ctorArms msgArms mode) S = some (i, arm))
    (hargs : decodeArmArgs arm.argDecoders A = .ok (vals, []))
    (hfail : decodeArmArgs arm.argDecoders B = .error e) :
    dispatch_using_mode ctorArms ctorExec msgArms msgExec mode (S ++ A ++ X)
        = activeExec ctorExec msgExec mode (i, vals) ∧
    dispatch_using_mode ctorArms ctorExec msgArms msgExec mode (S ++ A)
        = activeExec ctorExec msgExec mode (i, vals) ∧
    dispatch_using_mode ctorArms ctorExec msgArms msgExec mode (S ++ B)
        = .error .CouldNotReadInput := by
  have hAX := decodeArmArgs_exact_append _ _ _ hargs X
  cases mode
  · simp only [activeTable] at hfind
    refine ⟨?_, ?_, ?_⟩
    · rw [List.append_assoc]
      exact dispatchEnum_matched _ _ ctorExec S (A ++ X) i arm vals X hlen hfind hAX
    · exact dispatchEnum_matched _ _ ctorExec S A i arm vals [] hlen hfind hargs
    · exact dispatchEnum_argfail _ _ ctorExec S B i arm e hlen hfind hfail
  · simp only [activeTable] at hfind
    refine ⟨?_, ?_, ?_⟩
    · rw [List.append_assoc]
      exact dispatchEnum_matched _ _ msgExec S (A ++ X) i arm vals X hlen hfind hAX
    · exact dispatchEnum_matched _ _ msgExec S A i arm vals [] hlen hfind hargs
    · exact dispatchEnum_argfail _ _ msgExec S B i arm e hlen hfind hfail

/-- Witness for C9 on the concrete one-handler table: selector
`0x00000001` with a single byte argument.  `A = [7]` decodes exactly;
trailing bytes `[42, 43]` are ignored; the empty argument section fails
with `CouldNotReadInput`. -/
theorem dispatch_known_selector_decodes_witness :
    dispatch_using_mode exampleArmsNoArgs acceptAll exampleArms acceptAll
        .Call ([0, 0, 0, 1] ++ [7] ++ [42, 43]) = acceptAll (0, [7]) ∧
    dispatch_using_mode exampleArmsNoArgs acceptAll exampleArms acceptAll
        .Call ([0, 0, 0, 1] ++ [7]) = acceptAll (0, [7]) ∧
    dispatch_using_mode exampleArmsNoArgs acceptAll exampleArms acceptAll
        .Call ([0, 0, 0, 1] ++ []) = .error .CouldNotReadInput :=
  dispatch_known_selector_decodes exampleArmsNoArgs exampleArms acceptAll
    acceptAll .Call [0, 0, 0, 1] [7] [42, 43] [] 0
    { selector := [0, 0, 0, 1], argDecoders := [byteDecoder] } [7]
    { msg := "Not enough data to fill buffer" } (by decide) rfl rfl rfl

/-!
## Claims about the generator and the environment queries
-/

/-- C2 evaluation at the failing input: for a contract with one message
(selector `0x01010101`) and one constructor (selector `0xC0C0C0C0`),
`generate_constructor_dispatch_enum` builds the enum's variants and its
selector-decode arms from the contract's MESSAGES (`contract_messages()`
at `dispatch.rs` lines 510–515), not from its constructors, while the
execute arms come from the constructors (lines 516–518).  Consequently
the generated enum differs from the spec-described constructor enum, in
`Instantiate` mode the constructor's selector is absent from the decode
table, and the execute arm matches a variant identifier the enum does
not even declare — the generated code is internally inconsistent. -/
theorem constructor_dispatch_enum_built_from_messages :
    (generate_constructor_dispatch_enum exampleContract).variants
        = [((.Message, [1, 1, 1, 1]), [])] ∧
    (generate_constructor_dispatch_enum exampleContract).decodeArms
        = [([1, 1, 1, 1], ((.Message, [1, 1, 1, 1]), []))] ∧
    (generate_constructor_dispatch_enum exampleContract).executeArms
        = [(.Constructor, [192, 192, 192, 192])] ∧
    generate_constructor_dispatch_enum exampleContract
        ≠ constructorDispatchEnumSpec exampleContract ∧
    (CallableKind.Constructor, ([192, 192, 192, 192] : Bytes))
        ∉ (generate_constructor_dispatch_enum exampleContract).variants.map Prod.fst := by
  decide

/-- C6 counterexample: at a concrete environment with a live execution
context, `return_value` terminates by truly halting the process
(`std::process::exit`, observable as `processExit`), which differs from
the spec-described behaviour (`returnValueSpec`) of signalling a
termination status and returning control so the caller can observe the
output. -/
theorem return_value_truly_halts_counterexample :
    (return_value (mkEnv (oneAccountStore 0 10) 0) 5 [1, 2, 3]).termination
        = some (.processExit 5) ∧
    (return_value (mkEnv (oneAccountStore 0 10) 0) 5 [1, 2, 3]).termination
        ≠ (returnValueSpec (mkEnv (oneAccountStore 0 10) 0) 5 [1, 2, 3]).termination := by
  decide

/-- C6 amended: in the off-chain environment, `return_value` records the
value's encoding in the execution context's output slot and then truly
halts the whole process via `std::process::exit`, with the flags value
(reinterpreted as an `i32`) as the exit status; control never returns,
so the dispatcher's caller in the same process cannot go on to observe
the recorded output. -/
theorem return_value_stores_output_then_exits (st : EnvInstance)
    (ctx : ExecContext) (flags : Nat) (encodedValue : Bytes)
    (hctx : st.execContext = some ctx) :
    (return_value st flags encodedValue).outputSlot
        = some (some encodedValue) ∧
    (return_value st flags encodedValue).termination
        = some (.processExit (u32AsI32 flags)) := by
  simp [return_value, hctx, ReturnValueResult.outputSlot,
    ReturnValueResult.termination]

/-- Witness for the amended C6 at a concrete environment: flags `1`,
encoded output `[9]`. -/
theorem return_value_stores_output_then_exits_witness :
    (return_value (mkEnv (oneAccountStore 0 10) 0) 1 [9]).outputSlot
        = some (some [9]) ∧
    (return_value (mkEnv (oneAccountStore 0 10) 0) 1 [9]).termination
        = some (.processExit (u32AsI32 1)) :=
  return_value_stores_output_then_exits (mkEnv (oneAccountStore 0 10) 0)
    (mkCtx 0) 1 [9] rfl

/-- C8: `weight_to_fee` multiplies the decoded gas price by the gas
value converted (saturating) into the balance type, saturating the
product at the balance type's maximum — the result never exceeds
`2^w - 1`, so it never wraps — and it returns an error exactly when the
stored gas price does not decode (in which case the error is the decode
error "could not decode gas price"). -/
theorem weight_to_fee_saturates (w : Nat) (st : EnvInstance) (gas : Nat) :
    (∀ p, st.chainSpec.gasPrice = some p →
      weight_to_fee w st gas = .ok (saturatingMul w p (gasToBalance w gas)) ∧
      saturatingMul w p (gasToBalance w gas)
          = min (p * min gas (2 ^ w - 1)) (2 ^ w - 1) ∧
      saturatingMul w p (gasToBalance w gas) ≤ 2 ^ w - 1) ∧
    (st.chainSpec.gasPrice = none →
      weight_to_fee w st gas
        = .error (.decodeError "could not decode gas price")) := by
  constructor
  · intro p hp
    refine ⟨by simp [weight_to_fee, hp], ?_, ?_⟩
    · unfold saturatingMul gasToBalance
      rcases le_or_lt gas (2 ^ w - 1) with h | h
      · rw [if_pos h, min_eq_left h]
      · rw [if_neg (not_le.mpr h), min_eq_right (le_of_lt h)]
    · exact min_le_right _ _
  · intro hp
    simp [weight_to_fee, hp]

/-- Witness for C8: with gas price `3` at width `8`, `weight_to_fee`
saturates `3 * 100` to `255`; with an undecodable gas price it returns
the decode error. -/
theorem weight_to_fee_saturates_witness :
    (weight_to_fee 8
          { accounts := fun _ => none, execContext := none
            chainSpec := { gasPrice := some 3 } } 100
        = .ok (saturatingMul 8 3 (gasToBalance 8 100)) ∧
      saturatingMul 8 3 (gasToBalance 8 100)
          = min (3 * min 100 (2 ^ 8 - 1)) (2 ^ 8 - 1) ∧
      saturatingMul 8 3 (gasToBalance 8 100) ≤ 2 ^ 8 - 1) ∧
    weight_to_fee 8
        { accounts := fun _ => none, execContext := none
          chainSpec := { gasPrice := none } } 7
      = .error (.decodeError "could not decode gas price") :=
  ⟨(weight_to_fee_saturates 8
      { accounts := fun _ => none, execContext := none
        chainSpec := { gasPrice := some 3 } } 100).1 3 rfl,
    (weight_to_fee_saturates 8
      { accounts := fun _ => none, execContext := none
        chainSpec := { gasPrice := none } } 7).2 rfl⟩
